import Mathlib

/-!
Shallow embedding of `src/MedMNIST3D/train_and_eval_pytorch.py`.

The driver `main` orchestrates: optional resume evaluation, a training loop
(one `train` call plus a three-split `test` pass plus a scheduler step plus a
best-snapshot check per epoch), a checkpoint write, and a final three-split
evaluation of the best snapshot.

Framework-supplied quantities (per-batch scalar losses, per-epoch validation
AUC values, the effect of one epoch of optimization on the parameters) are
abstracted as inputs in `RunData`; everything the orchestration code itself
does is embedded faithfully: Python `range` over a possibly negative epoch
count, the strict-improvement best-model update, the global `iteration`
counter, the `save_folder` argument of each `test` call, the milestone
learning-rate schedule, and the `torch.save` payload.
-/

namespace MedMNIST3D

/-- The three dataset splits evaluated by the driver. -/
inductive Split : Type where
  | train : Split
  | val : Split
  | test : Split
  deriving DecidableEq, Repr

/-- Observable actions of one run of `main`, with `M` the abstract type of
model parameter states.  `evalSplit` records one call of the `test` routine
(which split, the `save_folder` argument, and the parameters evaluated);
`persist` records the `torch.save` payload stored under key `net`. -/
inductive Event (M : Type) where
  | trainStep (epoch : Nat)
  | evalSplit (split : Split) (saveFolder : Option String) (params : M)
  | schedStep
  | bestCmp (epoch : Nat) (replaced : Bool)
  | persist (params : M)
  deriving DecidableEq

/-- The per-batch body of `train`: `total_loss.append(loss.item())` and
`iteration += 1`, batch by batch in traversal order. -/
def trainBatches : List ℚ → List ℚ × Nat → List ℚ × Nat
  | [], st => st
  | loss :: rest, st => trainBatches rest (st.1 ++ [loss], st.2 + 1)

/-- The `train` function (one epoch): processes the per-batch scalar losses in
order, advancing the global `iteration` counter, and returns
`sum(total_loss)/len(total_loss)` (`none` models Python's `ZeroDivisionError`
on an empty batch sequence) together with the updated counter. -/
def train (losses : List ℚ) (iteration : Nat) : Option ℚ × Nat :=
  let r := trainBatches losses ([], iteration)
  (if r.1.length = 0 then none else some (r.1.sum / (r.1.length : ℚ)), r.2)

/-- The `test` function: accumulates per-batch losses and softmax probability
rows (`y_score`) in batch order, delegates to the external evaluator
(abstracted as the `evaluate` argument, receiving the concatenated score rows
and the `save_folder`), and returns `[test_loss, auc, acc]`; `none` models
Python's `ZeroDivisionError` on `sum(total_loss)/len(total_loss)` for an
empty batch sequence. -/
def test (evaluate : List (List ℚ) → Option String → ℚ × ℚ)
    (batches : List (ℚ × List (List ℚ))) (saveFolder : Option String) :
    Option (ℚ × ℚ × ℚ) :=
  let total_loss := batches.map Prod.fst
  let y_score := (batches.map Prod.snd).flatten
  let auc_acc := evaluate y_score saveFolder
  if total_loss.length = 0 then none
  else some (total_loss.sum / (total_loss.length : ℚ), auc_acc.1, auc_acc.2)

/-- The run parameters of `main` that the orchestration logic reads:
`num_epochs` (an integer, possibly zero or negative), the optional
`model_path` resume checkpoint, the (timestamped) `output_root` directory and
the backbone `model_flag`. -/
structure Config where
  numEpochs : Int
  modelPath : Option String
  outputRoot : String
  modelFlag : String

/-- Framework-supplied data of one run, abstracted: the parameter state after
loading (`initModel`), the effect of epoch `i`'s optimization on the
parameters (`epochTrain i`), the per-batch training losses of epoch `i`
(`epochLosses i`), and the validation AUC reported by the evaluator at epoch
`i` (`valAuc i`). -/
structure RunData (M : Type) where
  initModel : M
  epochTrain : Nat → M → M
  epochLosses : Nat → List ℚ
  valAuc : Nat → ℚ

/-- `lr = 0.001 if model_flag not in ['vit3d'] else 0.0001`. -/
def lrFor (modelFlag : String) : ℚ :=
  if modelFlag ∈ ["vit3d"] then 1 / 10000 else 1 / 1000

/-- `gamma = 0.1`. -/
def gamma : ℚ := 1 / 10

/-- `milestones = [0.5 * num_epochs, 0.75 * num_epochs]`. -/
def milestones (numEpochs : Int) : List ℚ :=
  [(1 / 2 : ℚ) * (numEpochs : ℚ), (3 / 4 : ℚ) * (numEpochs : ℚ)]

/-- Modelled from the spec: the external `MultiStepLR` scheduler (the source
only constructs it with `milestones` and `gamma` and calls `step()` once per
epoch).  Per the spec's learning-rate schedule, each `step()` advances
`last_epoch` by one and multiplies the learning rate by the fixed factor
exactly when the new `last_epoch` is one of the milestones. -/
def schedulerStep (ms : List ℚ) (st : Nat × ℚ) : Nat × ℚ :=
  let last_epoch := st.1 + 1
  (last_epoch, if ((last_epoch : Nat) : ℚ) ∈ ms then st.2 * gamma else st.2)

/-- The mutable state threaded through the training loop of `main`:
the live model, the global `iteration` counter, the scheduler state
`(last_epoch, lr)`, the best-snapshot triple `best_auc`/`best_epoch`/
`best_model`, and the trace of observable events so far. -/
structure LoopState (M : Type) where
  model : M
  iteration : Nat
  sched : Nat × ℚ
  best_auc : ℚ
  best_epoch : Nat
  best_model : M
  trace : List (Event M)

/-- The three `test` calls of one evaluation pass, in the fixed source order
train-for-eval, val, test, all sharing one `save_folder` argument and one
parameter state. -/
def evalPass {M : Type} (saveFolder : Option String) (params : M) :
    List (Event M) :=
  [Event.evalSplit Split.train saveFolder params,
   Event.evalSplit Split.val saveFolder params,
   Event.evalSplit Split.test saveFolder params]

/-- One iteration of `for epoch in trange(num_epochs)`: a `train` call, the
three in-loop `test` calls (default `save_folder=None`) on the post-training
live model, `scheduler.step()`, and the best-snapshot check
`if cur_auc > best_auc`. -/
def epochBody {M : Type} (cfg : Config) (run : RunData M)
    (st : LoopState M) (epoch : Nat) : LoopState M :=
  { model := run.epochTrain epoch st.model
    iteration := (train (run.epochLosses epoch) st.iteration).2
    sched := schedulerStep (milestones cfg.numEpochs) st.sched
    best_auc :=
      if run.valAuc epoch > st.best_auc then run.valAuc epoch else st.best_auc
    best_epoch :=
      if run.valAuc epoch > st.best_auc then epoch else st.best_epoch
    best_model :=
      if run.valAuc epoch > st.best_auc then run.epochTrain epoch st.model
      else st.best_model
    trace := st.trace ++ [Event.trainStep epoch]
      ++ evalPass none (run.epochTrain epoch st.model)
      ++ [Event.schedStep,
          Event.bestCmp epoch (decide (run.valAuc epoch > st.best_auc))] }

/-- The loop state just before the first epoch: `iteration = 0`,
`best_auc = 0`, `best_epoch = 0`, `best_model = deepcopy(model)`, scheduler
at `last_epoch = 0` with the configured initial learning rate. -/
def initState {M : Type} (cfg : Config) (run : RunData M) : LoopState M :=
  { model := run.initModel
    iteration := 0
    sched := (0, lrFor cfg.modelFlag)
    best_auc := 0
    best_epoch := 0
    best_model := run.initModel
    trace := [] }

/-- The loop state after the first `k` iterations of the training loop. -/
def loopStateAfter {M : Type} (cfg : Config) (run : RunData M) (k : Nat) :
    LoopState M :=
  (List.range k).foldl (epochBody cfg run) (initState cfg run)

/-- The sequence of live-model parameter states: `mSeq run 0` is the initial
(loaded) state, `mSeq run (i+1)` the state after epoch `i`'s training. -/
def mSeq {M : Type} (run : RunData M) : Nat → M
  | 0 => run.initModel
  | k + 1 => run.epochTrain k (mSeq run k)

/-- The `RESUME_EVAL` block: iff `model_path is not None`, `main` evaluates
all three splits of the loaded model, passing `output_root` as the save
folder. -/
def resumeEvents {M : Type} (cfg : Config) (run : RunData M) :
    List (Event M) :=
  match cfg.modelPath with
  | some _ => evalPass (some cfg.outputRoot) run.initModel
  | none => []

/-- The result of `main`: the full trace of observable events, and the final
loop state (`none` when the `num_epochs == 0` early return fires). -/
structure MainResult (M : Type) where
  trace : List (Event M)
  loopResult : Option (LoopState M)

/-- The `main` driver: resume evaluation, the `if num_epochs == 0: return`
early exit, `for epoch in trange(num_epochs)` (empty for nonpositive epoch
counts, as Python's `range`), then `torch.save({'net': model.state_dict()})`
— note: the live model, not `best_model` — and the final three-split
evaluation of `best_model` with `output_root` as save folder. -/
def main {M : Type} (cfg : Config) (run : RunData M) : MainResult M :=
  let resume := resumeEvents cfg run
  if cfg.numEpochs = 0 then
    { trace := resume, loopResult := none }
  else
    let st := loopStateAfter cfg run cfg.numEpochs.toNat
    { trace := resume ++ st.trace ++ [Event.persist st.model]
        ++ evalPass (some cfg.outputRoot) st.best_model
      loopResult := some st }

/-- Whether an event is a `train` call. -/
def isTrainStep {M : Type} : Event M → Bool
  | Event.trainStep _ => true
  | _ => false

/-- Whether an event is a best-snapshot comparison. -/
def isBestCmp {M : Type} : Event M → Bool
  | Event.bestCmp _ _ => true
  | _ => false

/-- Number of `train` calls in a trace. -/
def countTrainSteps {M : Type} (t : List (Event M)) : Nat :=
  (t.filter isTrainStep).length

/-- Number of best-snapshot comparisons in a trace. -/
def countBestCmps {M : Type} (t : List (Event M)) : Nat :=
  (t.filter isBestCmp).length

/-- The splits of the evaluation calls of a trace, in order. -/
def evalSplits {M : Type} (t : List (Event M)) : List Split :=
  t.filterMap fun e =>
    match e with
    | Event.evalSplit s _ _ => some s
    | _ => none

/-- The `save_folder` arguments of the evaluation calls of a trace, in
order. -/
def evalFolders {M : Type} (t : List (Event M)) : List (Option String) :=
  t.filterMap fun e =>
    match e with
    | Event.evalSplit _ f _ => some f
    | _ => none

/-- The payloads written by `torch.save` under key `net`, in order. -/
def persistedParams {M : Type} (t : List (Event M)) : List M :=
  t.filterMap fun e =>
    match e with
    | Event.persist p => some p
    | _ => none

/-- The best-snapshot triple of a loop state. -/
def bestTriple {M : Type} (st : LoopState M) : ℚ × Nat × M :=
  (st.best_auc, st.best_epoch, st.best_model)

/-- A two-epoch run on abstract parameter states `Nat`, whose validation AUC
peaks at epoch 0: the best snapshot is `mSeq 1 = 1` while the final live
model is `mSeq 2 = 2`. -/
def bugRun : RunData Nat :=
  { initModel := 0
    epochTrain := fun _ m => m + 1
    epochLosses := fun _ => [1]
    valAuc := fun i => if i = 0 then 1 / 2 else 1 / 4 }

/-- A two-epoch configuration without a resume path. -/
def bugCfg : Config :=
  { numEpochs := 2, modelPath := none, outputRoot := "out",
    modelFlag := "resnet18" }

/-- A generic one-batch-per-epoch run on abstract parameter states `Nat`. -/
def sampleRun : RunData Nat :=
  { initModel := 0
    epochTrain := fun _ m => m + 1
    epochLosses := fun _ => [2, 4]
    valAuc := fun _ => 1 / 2 }

/-- A one-epoch configuration without a resume path. -/
def oneCfg : Config :=
  { numEpochs := 1, modelPath := none, outputRoot := "out",
    modelFlag := "resnet18" }

/-- A zero-epoch configuration with a resume path. -/
def epoch0Cfg : Config :=
  { numEpochs := 0, modelPath := some "ckpt.pth", outputRoot := "out",
    modelFlag := "resnet18" }

/-- A negative-epoch-count configuration without a resume path. -/
def negCfg : Config :=
  { numEpochs := -3, modelPath := none, outputRoot := "out",
    modelFlag := "resnet18" }

/-- A configuration with the default 100 epochs. -/
def hundredCfg : Config :=
  { numEpochs := 100, modelPath := none, outputRoot := "out",
    modelFlag := "resnet18" }

/-- A concrete external evaluator returning fixed metrics. -/
def ev0 : List (List ℚ) → Option String → ℚ × ℚ :=
  fun _ _ => (1 / 2, 3 / 4)

theorem loopStateAfter_zero {M : Type} (cfg : Config) (run : RunData M) :
    loopStateAfter cfg run 0 = initState cfg run := rfl

theorem loopStateAfter_succ {M : Type} (cfg : Config) (run : RunData M)
    (k : Nat) :
    loopStateAfter cfg run (k + 1)
      = epochBody cfg run (loopStateAfter cfg run k) k := by
  simp [loopStateAfter, List.range_succ]

theorem trainBatches_eq (ls : List ℚ) :
    ∀ (acc : List ℚ) (it : Nat),
      trainBatches ls (acc, it) = (acc ++ ls, it + ls.length) := by
  induction ls with
  | nil => intro acc it; simp [trainBatches]
  | cons l rest ih =>
      intro acc it
      rw [trainBatches, ih]
      simp
      omega

theorem train_fst (ls : List ℚ) (it : Nat) :
    (train ls it).1
      = if ls.length = 0 then none else some (ls.sum / (ls.length : ℚ)) := by
  simp [train, trainBatches_eq]

theorem train_snd (ls : List ℚ) (it : Nat) :
    (train ls it).2 = it + ls.length := by
  simp [train, trainBatches_eq]

theorem countTrainSteps_append {M : Type} (a b : List (Event M)) :
    countTrainSteps (a ++ b) = countTrainSteps a + countTrainSteps b := by
  simp [countTrainSteps, List.filter_append]

theorem countBestCmps_append {M : Type} (a b : List (Event M)) :
    countBestCmps (a ++ b) = countBestCmps a + countBestCmps b := by
  simp [countBestCmps, List.filter_append]

theorem evalSplits_append {M : Type} (a b : List (Event M)) :
    evalSplits (a ++ b) = evalSplits a ++ evalSplits b := by
  simp [evalSplits, List.filterMap_append]

theorem evalFolders_append {M : Type} (a b : List (Event M)) :
    evalFolders (a ++ b) = evalFolders a ++ evalFolders b := by
  simp [evalFolders, List.filterMap_append]

theorem persistedParams_append {M : Type} (a b : List (Event M)) :
    persistedParams (a ++ b) = persistedParams a ++ persistedParams b := by
  simp [persistedParams, List.filterMap_append]

theorem evalSplits_evalPass {M : Type} (f : Option String) (m : M) :
    evalSplits (evalPass f m) = [Split.train, Split.val, Split.test] := rfl

theorem evalFolders_evalPass {M : Type} (f : Option String) (m : M) :
    evalFolders (evalPass f m) = List.replicate 3 f := rfl

theorem countTrainSteps_evalPass {M : Type} (f : Option String) (m : M) :
    countTrainSteps (evalPass f m) = 0 := rfl

theorem countBestCmps_evalPass {M : Type} (f : Option String) (m : M) :
    countBestCmps (evalPass f m) = 0 := rfl

theorem persistedParams_evalPass {M : Type} (f : Option String) (m : M) :
    persistedParams (evalPass f m) = [] := rfl

theorem epochBody_trace {M : Type} (cfg : Config) (run : RunData M)
    (st : LoopState M) (e : Nat) :
    (epochBody cfg run st e).trace
      = st.trace ++ [Event.trainStep e]
        ++ evalPass none (run.epochTrain e st.model)
        ++ [Event.schedStep,
            Event.bestCmp e (decide (run.valAuc e > st.best_auc))] := rfl

theorem countTrainSteps_single {M : Type} (e : Nat) :
    countTrainSteps [(Event.trainStep e : Event M)] = 1 := rfl

theorem countTrainSteps_tailBlock {M : Type} (e : Nat) (b : Bool) :
    countTrainSteps [(Event.schedStep : Event M), Event.bestCmp e b] = 0 := rfl

theorem countBestCmps_single {M : Type} (e : Nat) :
    countBestCmps [(Event.trainStep e : Event M)] = 0 := rfl

theorem countBestCmps_tailBlock {M : Type} (e : Nat) (b : Bool) :
    countBestCmps [(Event.schedStep : Event M), Event.bestCmp e b] = 1 := rfl

theorem evalSplits_single {M : Type} (e : Nat) :
    evalSplits [(Event.trainStep e : Event M)] = [] := rfl

theorem evalSplits_tailBlock {M : Type} (e : Nat) (b : Bool) :
    evalSplits [(Event.schedStep : Event M), Event.bestCmp e b] = [] := rfl

theorem evalFolders_single {M : Type} (e : Nat) :
    evalFolders [(Event.trainStep e : Event M)] = [] := rfl

theorem evalFolders_tailBlock {M : Type} (e : Nat) (b : Bool) :
    evalFolders [(Event.schedStep : Event M), Event.bestCmp e b] = [] := rfl

theorem persistedParams_single {M : Type} (e : Nat) :
    persistedParams [(Event.trainStep e : Event M)] = [] := rfl

theorem persistedParams_tailBlock {M : Type} (e : Nat) (b : Bool) :
    persistedParams [(Event.schedStep : Event M), Event.bestCmp e b] = [] :=
  rfl

theorem epochBody_best_auc {M : Type} (cfg : Config) (run : RunData M)
    (st : LoopState M) (e : Nat) :
    (epochBody cfg run st e).best_auc
      = if run.valAuc e > st.best_auc then run.valAuc e else st.best_auc :=
  rfl

theorem epochBody_best_model {M : Type} (cfg : Config) (run : RunData M)
    (st : LoopState M) (e : Nat) :
    (epochBody cfg run st e).best_model
      = if run.valAuc e > st.best_auc then run.epochTrain e st.model
        else st.best_model :=
  rfl

theorem loop_trace_counts {M : Type} (cfg : Config) (run : RunData M)
    (k : Nat) :
    countTrainSteps (loopStateAfter cfg run k).trace = k
  ∧ countBestCmps (loopStateAfter cfg run k).trace = k
  ∧ evalSplits (loopStateAfter cfg run k).trace
      = (List.replicate k [Split.train, Split.val, Split.test]).flatten
  ∧ evalFolders (loopStateAfter cfg run k).trace = List.replicate (3 * k) none
  ∧ persistedParams (loopStateAfter cfg run k).trace = [] := by
  induction k with
  | zero =>
      simp [loopStateAfter_zero, initState, countTrainSteps, countBestCmps,
        evalSplits, evalFolders, persistedParams]
  | succ k ih =>
      obtain ⟨h1, h2, h3, h4, h5⟩ := ih
      rw [loopStateAfter_succ]
      refine ⟨?_, ?_, ?_, ?_, ?_⟩
      · rw [epochBody_trace]
        simp only [countTrainSteps_append, h1, countTrainSteps_evalPass,
          countTrainSteps_single, countTrainSteps_tailBlock]
      · rw [epochBody_trace]
        simp only [countBestCmps_append, h2, countBestCmps_evalPass,
          countBestCmps_single, countBestCmps_tailBlock]
      · rw [epochBody_trace]
        simp only [evalSplits_append, h3, evalSplits_evalPass,
          evalSplits_single, evalSplits_tailBlock]
        simp [List.replicate_succ']
      · rw [epochBody_trace]
        simp only [evalFolders_append, h4, evalFolders_evalPass,
          evalFolders_single, evalFolders_tailBlock]
        simp [Nat.mul_succ, List.replicate_add]
      · rw [epochBody_trace]
        simp only [persistedParams_append, h5, persistedParams_evalPass,
          persistedParams_single, persistedParams_tailBlock]
        simp

theorem loop_model {M : Type} (cfg : Config) (run : RunData M) (k : Nat) :
    (loopStateAfter cfg run k).model = mSeq run k := by
  induction k with
  | zero => rfl
  | succ k ih =>
      rw [loopStateAfter_succ]
      simp [epochBody, ih, mSeq]

theorem loop_iteration {M : Type} (cfg : Config) (run : RunData M) (k : Nat) :
    (loopStateAfter cfg run k).iteration
      = ((List.range k).map fun i => (run.epochLosses i).length).sum := by
  induction k with
  | zero => rfl
  | succ k ih =>
      rw [loopStateAfter_succ]
      simp [epochBody, train_snd, ih, List.range_succ]

theorem loop_sched_fst {M : Type} (cfg : Config) (run : RunData M) (k : Nat) :
    (loopStateAfter cfg run k).sched.1 = k := by
  induction k with
  | zero => rfl
  | succ k ih =>
      rw [loopStateAfter_succ]
      simp [epochBody, schedulerStep, ih]

theorem loop_best_invariant {M : Type} (cfg : Config) (run : RunData M)
    (k : Nat) :
    0 ≤ (loopStateAfter cfg run k).best_auc
  ∧ (∀ j < k, run.valAuc j ≤ (loopStateAfter cfg run k).best_auc)
  ∧ (0 < (loopStateAfter cfg run k).best_auc →
        run.valAuc (loopStateAfter cfg run k).best_epoch
          = (loopStateAfter cfg run k).best_auc
      ∧ (loopStateAfter cfg run k).best_epoch < k
      ∧ (loopStateAfter cfg run k).best_model
          = mSeq run ((loopStateAfter cfg run k).best_epoch + 1)
      ∧ ∀ j < (loopStateAfter cfg run k).best_epoch,
          run.valAuc j < (loopStateAfter cfg run k).best_auc)
  ∧ ((loopStateAfter cfg run k).best_auc = 0 →
        (loopStateAfter cfg run k).best_epoch = 0
      ∧ (loopStateAfter cfg run k).best_model = run.initModel) := by
  induction k with
  | zero =>
      refine ⟨le_refl 0, ?_, ?_, ?_⟩
      · intro j hj
        exact absurd hj (Nat.not_lt_zero j)
      · intro h
        exact absurd h (lt_irrefl 0)
      · intro _
        exact ⟨rfl, rfl⟩
  | succ k ih =>
      obtain ⟨ih0, ih1, ih2, ih3⟩ := ih
      have hmodel := loop_model cfg run k
      rw [loopStateAfter_succ]
      by_cases h : run.valAuc k > (loopStateAfter cfg run k).best_auc
      · have hb : (epochBody cfg run (loopStateAfter cfg run k) k).best_auc
            = run.valAuc k := by simp [epochBody, h]
        have he : (epochBody cfg run (loopStateAfter cfg run k) k).best_epoch
            = k := by simp [epochBody, h]
        have hm : (epochBody cfg run (loopStateAfter cfg run k) k).best_model
            = run.epochTrain k (loopStateAfter cfg run k).model := by
          simp [epochBody, h]
        rw [hb, he, hm]
        refine ⟨le_of_lt (lt_of_le_of_lt ih0 h), ?_, ?_, ?_⟩
        · intro j hj
          rcases Nat.lt_succ_iff_lt_or_eq.mp hj with hj | rfl
          · exact le_trans (ih1 j hj) (le_of_lt h)
          · exact le_refl _
        · intro _
          refine ⟨rfl, Nat.lt_succ_self k, ?_, ?_⟩
          · rw [hmodel]
            simp [mSeq]
          · intro j hj
            exact lt_of_le_of_lt (ih1 j hj) h
        · intro h0
          exact absurd h0 (ne_of_gt (lt_of_le_of_lt ih0 h))
      · have hb : (epochBody cfg run (loopStateAfter cfg run k) k).best_auc
            = (loopStateAfter cfg run k).best_auc := by simp [epochBody, h]
        have he : (epochBody cfg run (loopStateAfter cfg run k) k).best_epoch
            = (loopStateAfter cfg run k).best_epoch := by simp [epochBody, h]
        have hm : (epochBody cfg run (loopStateAfter cfg run k) k).best_model
            = (loopStateAfter cfg run k).best_model := by simp [epochBody, h]
        rw [hb, he, hm]
        refine ⟨ih0, ?_, ?_, ih3⟩
        · intro j hj
          rcases Nat.lt_succ_iff_lt_or_eq.mp hj with hj | rfl
          · exact ih1 j hj
          · exact not_lt.mp h
        · intro hpos
          obtain ⟨a, b, c, d⟩ := ih2 hpos
          exact ⟨a, Nat.lt_succ_of_lt b, c, d⟩

theorem loop_sched_snd_succ {M : Type} (cfg : Config) (run : RunData M)
    (k : Nat) :
    (loopStateAfter cfg run (k + 1)).sched.2
      = if ((k + 1 : Nat) : ℚ) ∈ milestones cfg.numEpochs
        then (loopStateAfter cfg run k).sched.2 * gamma
        else (loopStateAfter cfg run k).sched.2 := by
  rw [loopStateAfter_succ]
  simp [epochBody, schedulerStep, loop_sched_fst]

theorem flatten_replicate_add {α : Type} (m n : Nat) (l : List α) :
    (List.replicate (m + n) l).flatten
      = (List.replicate m l).flatten ++ (List.replicate n l).flatten := by
  rw [List.replicate_add, List.flatten_append]

theorem flatten_replicate_one {α : Type} (l : List α) :
    (List.replicate 1 l).flatten = l := by simp

theorem main_pos {M : Type} (cfg : Config) (run : RunData M)
    (h : cfg.numEpochs ≠ 0) :
    main cfg run
      = { trace := resumeEvents cfg run
            ++ (loopStateAfter cfg run cfg.numEpochs.toNat).trace
            ++ [Event.persist (loopStateAfter cfg run cfg.numEpochs.toNat).model]
            ++ evalPass (some cfg.outputRoot)
                (loopStateAfter cfg run cfg.numEpochs.toNat).best_model
          loopResult := some (loopStateAfter cfg run cfg.numEpochs.toNat) } := by
  simp [main, h]

theorem main_zero {M : Type} (cfg : Config) (run : RunData M)
    (h : cfg.numEpochs = 0) :
    main cfg run = { trace := resumeEvents cfg run, loopResult := none } := by
  simp [main, h]

theorem countTrainSteps_resume {M : Type} (cfg : Config) (run : RunData M) :
    countTrainSteps (resumeEvents cfg run) = 0 := by
  rcases hcp : cfg.modelPath with _ | p
  · simp only [resumeEvents, hcp]
    rfl
  · simp only [resumeEvents, hcp]
    exact countTrainSteps_evalPass _ _

theorem countBestCmps_resume {M : Type} (cfg : Config) (run : RunData M) :
    countBestCmps (resumeEvents cfg run) = 0 := by
  rcases hcp : cfg.modelPath with _ | p
  · simp only [resumeEvents, hcp]
    rfl
  · simp only [resumeEvents, hcp]
    exact countBestCmps_evalPass _ _

theorem persistedParams_resume {M : Type} (cfg : Config) (run : RunData M) :
    persistedParams (resumeEvents cfg run) = [] := by
  rcases hcp : cfg.modelPath with _ | p
  · simp only [resumeEvents, hcp]
    rfl
  · simp only [resumeEvents, hcp]
    exact persistedParams_evalPass _ _

theorem evalSplits_resume {M : Type} (cfg : Config) (run : RunData M) :
    evalSplits (resumeEvents cfg run)
      = if cfg.modelPath.isSome then [Split.train, Split.val, Split.test]
        else [] := by
  rcases hcp : cfg.modelPath with _ | p
  · simp only [resumeEvents, hcp, Option.isSome_none, Bool.false_eq_true,
      if_false]
    rfl
  · simp only [resumeEvents, hcp, Option.isSome_some, if_true]
    exact evalSplits_evalPass _ _

theorem evalFolders_resume {M : Type} (cfg : Config) (run : RunData M) :
    evalFolders (resumeEvents cfg run)
      = if cfg.modelPath.isSome then List.replicate 3 (some cfg.outputRoot)
        else [] := by
  rcases hcp : cfg.modelPath with _ | p
  · simp only [resumeEvents, hcp, Option.isSome_none, Bool.false_eq_true,
      if_false]
    rfl
  · simp only [resumeEvents, hcp, Option.isSome_some, if_true]
    exact evalFolders_evalPass _ _

theorem countTrainSteps_persist {M : Type} (p : M) :
    countTrainSteps [Event.persist p] = 0 := rfl

theorem countBestCmps_persist {M : Type} (p : M) :
    countBestCmps [Event.persist p] = 0 := rfl

theorem evalSplits_persist {M : Type} (p : M) :
    evalSplits [Event.persist p] = [] := rfl

theorem evalFolders_persist {M : Type} (p : M) :
    evalFolders [Event.persist p] = [] := rfl

theorem persistedParams_persist {M : Type} (p : M) :
    persistedParams [Event.persist p] = [p] := rfl

/-- Claim C4: for every non-empty batch sequence, the training step's return
value equals the arithmetic mean (sum divided by count) of the per-batch
scalar loss values taken in traversal order; in particular for a single-batch
epoch the returned mean loss equals that batch's loss exactly. -/
theorem c4_train_mean_loss (losses : List ℚ) (it : Nat) (h : losses ≠ []) :
    (train losses it).1 = some (losses.sum / (losses.length : ℚ))
  ∧ ∀ (l : ℚ) (it2 : Nat), (train [l] it2).1 = some l := by
  constructor
  · rw [train_fst, if_neg]
    intro hc
    exact h (List.length_eq_zero.mp hc)
  · intro l it2
    rw [train_fst]
    norm_num

/-- Claim C4 witness: concrete two-batch and one-batch instances. -/
theorem c4_train_mean_loss_witness :
    ([(2 : ℚ), 4] ≠ [])
  ∧ ((train [(2 : ℚ), 4] 0).1 = some ([(2 : ℚ), 4].sum / (([(2 : ℚ), 4].length : Nat) : ℚ))
      ∧ ∀ (l : ℚ) (it2 : Nat), (train [l] it2).1 = some l) := by
  refine ⟨by decide, c4_train_mean_loss [(2 : ℚ), 4] 0 (by decide)⟩

/-- Claim C5: the global step counter starts at 0, increases by exactly the
number of batches processed by each training step (one per batch), and is
threaded across epochs without ever being reset, so after `k` epochs it
equals the total number of batches processed so far. -/
theorem c5_iteration_counter {M : Type} (cfg : Config) (run : RunData M) :
    (initState cfg run).iteration = 0
  ∧ (∀ (l : ℚ) (ls : List ℚ) (st0 : List ℚ × Nat),
      trainBatches (l :: ls) st0 = trainBatches ls (st0.1 ++ [l], st0.2 + 1))
  ∧ (∀ (losses : List ℚ) (it : Nat), (train losses it).2 = it + losses.length)
  ∧ (∀ k, (loopStateAfter cfg run (k + 1)).iteration
        = (loopStateAfter cfg run k).iteration + (run.epochLosses k).length)
  ∧ (∀ k, (loopStateAfter cfg run k).iteration
        = ((List.range k).map fun i => (run.epochLosses i).length).sum) := by
  refine ⟨rfl, fun l ls st0 => rfl, train_snd, ?_, loop_iteration cfg run⟩
  intro k
  rw [loopStateAfter_succ]
  simp [epochBody, train_snd]

/-- Claim C6: the evaluation routine on an empty batch sequence hits the
division by zero in the mean-loss computation and never returns a metrics
triple; on every non-empty sequence it returns `[mean_loss, auc, accuracy]`
with the evaluator's AUC and accuracy computed from the concatenated score
rows. -/
theorem c6_eval_routine (evaluate : List (List ℚ) → Option String → ℚ × ℚ)
    (batches : List (ℚ × List (List ℚ))) (saveFolder : Option String) :
    (batches = [] → test evaluate batches saveFolder = none)
  ∧ (batches ≠ [] →
      test evaluate batches saveFolder
        = some ((batches.map Prod.fst).sum / ((batches.length : Nat) : ℚ),
            (evaluate ((batches.map Prod.snd).flatten) saveFolder).1,
            (evaluate ((batches.map Prod.snd).flatten) saveFolder).2)) := by
  constructor
  · intro h
    subst h
    rfl
  · intro h
    rw [test, if_neg]
    · simp
    · simp only [List.length_map]
      intro hc
      exact h (List.length_eq_zero.mp hc)

/-- Claim C6 witness: the empty sequence yields no result and a concrete
one-batch sequence yields the metrics triple. -/
theorem c6_eval_routine_witness :
    test ev0 ([] : List (ℚ × List (List ℚ))) none = none
  ∧ test ev0 [((2 : ℚ), [[(1 : ℚ)]])] none = some (2, 1 / 2, 3 / 4) := by
  constructor
  · exact (c6_eval_routine ev0 [] none).1 rfl
  · have h := (c6_eval_routine ev0 [((2 : ℚ), [[(1 : ℚ)]])] none).2 (by decide)
    rw [h]
    simp [ev0]

/-- Claim C7: with epoch count exactly zero, `main` returns immediately after
the (optional) resume evaluation: the loop state is never built, no training
step runs, no checkpoint-improvement comparison occurs, and no checkpoint is
persisted; when a resume path is supplied, the three-split resume evaluation
still runs (and without one, nothing at all is traced). -/
theorem c7_zero_epochs {M : Type} (cfg : Config) (run : RunData M)
    (h : cfg.numEpochs = 0) :
    (main cfg run).trace = resumeEvents cfg run
  ∧ (main cfg run).loopResult = none
  ∧ countTrainSteps (main cfg run).trace = 0
  ∧ countBestCmps (main cfg run).trace = 0
  ∧ persistedParams (main cfg run).trace = []
  ∧ (cfg.modelPath.isSome →
      (main cfg run).trace = evalPass (some cfg.outputRoot) run.initModel)
  ∧ (cfg.modelPath = none → (main cfg run).trace = []) := by
  rw [main_zero cfg run h]
  refine ⟨rfl, rfl, countTrainSteps_resume cfg run, countBestCmps_resume cfg run,
    persistedParams_resume cfg run, ?_, ?_⟩
  · intro hs
    rcases hcp : cfg.modelPath with _ | p
    · rw [hcp] at hs
      exact absurd hs (by simp)
    · simp only [resumeEvents, hcp]
  · intro hn
    simp only [resumeEvents, hn]

/-- Claim C7 witness: a zero-epoch configuration with a resume path. -/
theorem c7_zero_epochs_witness :
    epoch0Cfg.numEpochs = 0
  ∧ ((main epoch0Cfg sampleRun).trace = resumeEvents epoch0Cfg sampleRun
  ∧ (main epoch0Cfg sampleRun).loopResult = none
  ∧ countTrainSteps (main epoch0Cfg sampleRun).trace = 0
  ∧ countBestCmps (main epoch0Cfg sampleRun).trace = 0
  ∧ persistedParams (main epoch0Cfg sampleRun).trace = []
  ∧ (epoch0Cfg.modelPath.isSome →
      (main epoch0Cfg sampleRun).trace
        = evalPass (some epoch0Cfg.outputRoot) sampleRun.initModel)
  ∧ (epoch0Cfg.modelPath = none → (main epoch0Cfg sampleRun).trace = [])) :=
  ⟨rfl, c7_zero_epochs epoch0Cfg sampleRun rfl⟩

/-- Claim C9: for every negative epoch count the zero-epoch early exit does
not fire; the loop body never runs (Python's `range` of a negative count is
empty), so there are no training steps and no best-snapshot comparisons, yet
`main` still persists a checkpoint holding the initial (loaded) parameters
and still runs the final three-split evaluation on those same parameters. -/
theorem c9_negative_epochs {M : Type} (cfg : Config) (run : RunData M)
    (h : cfg.numEpochs < 0) :
    countTrainSteps (main cfg run).trace = 0
  ∧ countBestCmps (main cfg run).trace = 0
  ∧ persistedParams (main cfg run).trace = [run.initModel]
  ∧ (main cfg run).trace
      = resumeEvents cfg run ++ [Event.persist run.initModel]
        ++ evalPass (some cfg.outputRoot) run.initModel := by
  have hne : cfg.numEpochs ≠ 0 := by omega
  have ht : cfg.numEpochs.toNat = 0 := by omega
  rw [main_pos cfg run hne, ht]
  have hmain : (loopStateAfter cfg run 0).trace = ([] : List (Event M)) := rfl
  have hm : (loopStateAfter cfg run 0).model = run.initModel := rfl
  have hbm : (loopStateAfter cfg run 0).best_model = run.initModel := rfl
  rw [hmain, hm, hbm]
  simp only [List.append_nil]
  refine ⟨?_, ?_, ?_, trivial⟩
  · rw [countTrainSteps_append, countTrainSteps_append,
      countTrainSteps_resume, countTrainSteps_persist,
      countTrainSteps_evalPass]
  · rw [countBestCmps_append, countBestCmps_append,
      countBestCmps_resume, countBestCmps_persist, countBestCmps_evalPass]
  · rw [persistedParams_append, persistedParams_append,
      persistedParams_resume, persistedParams_persist,
      persistedParams_evalPass]
    rfl

/-- Claim C9 witness: a concrete negative epoch count. -/
theorem c9_negative_epochs_witness :
    negCfg.numEpochs < 0
  ∧ (countTrainSteps (main negCfg sampleRun).trace = 0
  ∧ countBestCmps (main negCfg sampleRun).trace = 0
  ∧ persistedParams (main negCfg sampleRun).trace = [sampleRun.initModel]
  ∧ (main negCfg sampleRun).trace
      = resumeEvents negCfg sampleRun
        ++ [Event.persist sampleRun.initModel]
        ++ evalPass (some negCfg.outputRoot) sampleRun.initModel) :=
  ⟨by decide, c9_negative_epochs negCfg sampleRun (by decide)⟩

/-- Claim C10: the `save_folder` arguments of the evaluation calls of a whole
run are, in order: `output_root` for the three resume-evaluation calls (when
a resume path is given), `None` for every per-epoch evaluation inside the
training loop, and `output_root` for the three final-evaluation calls — so a
per-split results file can be written only by the resume and final
evaluations, never during the training loop. -/
theorem c10_save_folders {M : Type} (cfg : Config) (run : RunData M) :
    evalFolders (main cfg run).trace
      = (if cfg.modelPath.isSome then List.replicate 3 (some cfg.outputRoot)
         else [])
        ++ (if cfg.numEpochs = 0 then []
            else List.replicate (3 * cfg.numEpochs.toNat) none
              ++ List.replicate 3 (some cfg.outputRoot)) := by
  by_cases h : cfg.numEpochs = 0
  · rw [main_zero cfg run h, if_pos h]
    simp [evalFolders_resume]
  · rw [main_pos cfg run h, if_neg h]
    rw [evalFolders_append, evalFolders_append, evalFolders_append,
      evalFolders_resume, evalFolders_persist, evalFolders_evalPass,
      (loop_trace_counts cfg run cfg.numEpochs.toNat).2.2.2.1]
    simp

/-- Claim C3: for every epoch count N ≥ 1, `main` executes exactly N training
steps, and its evaluation calls form complete three-split passes in the fixed
order train-for-eval, val, test — at least N + 1 of them (N in-loop passes
plus the final pass, plus one more when resuming). -/
theorem c3_steps_and_passes {M : Type} (cfg : Config) (run : RunData M)
    (h : 1 ≤ cfg.numEpochs) :
    ((countTrainSteps (main cfg run).trace : Nat) : Int) = cfg.numEpochs
  ∧ evalSplits (main cfg run).trace
      = (List.replicate
          ((if cfg.modelPath.isSome then 1 else 0) + cfg.numEpochs.toNat + 1)
          [Split.train, Split.val, Split.test]).flatten
  ∧ cfg.numEpochs.toNat + 1
      ≤ (if cfg.modelPath.isSome then 1 else 0) + cfg.numEpochs.toNat + 1 := by
  have hne : cfg.numEpochs ≠ 0 := by omega
  rw [main_pos cfg run hne]
  refine ⟨?_, ?_, by omega⟩
  · rw [countTrainSteps_append, countTrainSteps_append, countTrainSteps_append,
      countTrainSteps_resume, countTrainSteps_persist, countTrainSteps_evalPass,
      (loop_trace_counts cfg run cfg.numEpochs.toNat).1]
    omega
  · rw [evalSplits_append, evalSplits_append, evalSplits_append,
      evalSplits_resume, evalSplits_persist, evalSplits_evalPass,
      (loop_trace_counts cfg run cfg.numEpochs.toNat).2.2.1]
    by_cases hs : cfg.modelPath.isSome
    · rw [if_pos hs, if_pos hs, flatten_replicate_add, flatten_replicate_add,
        flatten_replicate_one]
      simp
    · rw [if_neg hs, if_neg hs, flatten_replicate_add, flatten_replicate_one]
      simp

/-- Claim C3 witness: a one-epoch run without resume. -/
theorem c3_steps_and_passes_witness :
    (1 : Int) ≤ oneCfg.numEpochs
  ∧ (((countTrainSteps (main oneCfg sampleRun).trace : Nat) : Int)
        = oneCfg.numEpochs
  ∧ evalSplits (main oneCfg sampleRun).trace
      = (List.replicate
          ((if oneCfg.modelPath.isSome then 1 else 0)
            + oneCfg.numEpochs.toNat + 1)
          [Split.train, Split.val, Split.test]).flatten
  ∧ oneCfg.numEpochs.toNat + 1
      ≤ (if oneCfg.modelPath.isSome then 1 else 0)
          + oneCfg.numEpochs.toNat + 1) :=
  ⟨by decide, c3_steps_and_passes oneCfg sampleRun (by decide)⟩

/-- Claim C8: the learning-rate milestones sit at 50% and 75% of the
configured epoch count, and for epoch count 100 the scheduler multiplies the
learning rate by the fixed factor `gamma = 0.1` exactly at its 50th and 75th
step and leaves it unchanged at every other step. -/
theorem c8_lr_milestones {M : Type} (cfg : Config) (run : RunData M)
    (h : cfg.numEpochs = 100) :
    (∀ numEpochs : Int,
      milestones numEpochs
        = [(numEpochs : ℚ) / 2, 3 * (numEpochs : ℚ) / 4])
  ∧ milestones cfg.numEpochs = [(50 : ℚ), 75]
  ∧ gamma = 1 / 10
  ∧ ∀ e : Nat,
      ((e + 1 = 50 ∨ e + 1 = 75) →
        (loopStateAfter cfg run (e + 1)).sched.2
          = (loopStateAfter cfg run e).sched.2 * gamma)
    ∧ (¬(e + 1 = 50 ∨ e + 1 = 75) →
        (loopStateAfter cfg run (e + 1)).sched.2
          = (loopStateAfter cfg run e).sched.2) := by
  have hms : milestones cfg.numEpochs = [(50 : ℚ), 75] := by
    rw [h]
    norm_num [milestones]
  have hmem : ∀ m : Nat,
      (((m : Nat) : ℚ) ∈ milestones cfg.numEpochs) ↔ (m = 50 ∨ m = 75) := by
    intro m
    rw [hms]
    simp only [List.mem_cons, List.mem_singleton, List.not_mem_nil, or_false]
    constructor
    · rintro (h50 | h75)
      · left
        exact_mod_cast h50
      · right
        exact_mod_cast h75
    · rintro (rfl | rfl) <;> norm_num
  refine ⟨?_, hms, rfl, ?_⟩
  · intro n
    simp only [milestones]
    norm_num
    constructor <;> ring
  · intro e
    constructor
    · intro he
      rw [loop_sched_snd_succ, if_pos ((hmem (e + 1)).mpr he)]
    · intro he
      rw [loop_sched_snd_succ, if_neg (fun hx => he ((hmem (e + 1)).mp hx))]

/-- Claim C8 witness: the default 100-epoch configuration. -/
theorem c8_lr_milestones_witness :
    hundredCfg.numEpochs = 100
  ∧ ((∀ numEpochs : Int,
      milestones numEpochs
        = [(numEpochs : ℚ) / 2, 3 * (numEpochs : ℚ) / 4])
  ∧ milestones hundredCfg.numEpochs = [(50 : ℚ), 75]
  ∧ gamma = 1 / 10
  ∧ ∀ e : Nat,
      ((e + 1 = 50 ∨ e + 1 = 75) →
        (loopStateAfter hundredCfg sampleRun (e + 1)).sched.2
          = (loopStateAfter hundredCfg sampleRun e).sched.2 * gamma)
    ∧ (¬(e + 1 = 50 ∨ e + 1 = 75) →
        (loopStateAfter hundredCfg sampleRun (e + 1)).sched.2
          = (loopStateAfter hundredCfg sampleRun e).sched.2)) :=
  ⟨rfl, c8_lr_milestones hundredCfg sampleRun rfl⟩

/-- Claim C2: for every run with epoch count N ≥ 1 (validation AUCs being
nonnegative, as AUC values are), the best-snapshot triple is replaced at an
epoch's checkpoint check iff that epoch's validation AUC strictly exceeds
the best seen so far; after the loop the recorded best validation AUC is the
maximum of the per-epoch validation AUCs (attained, and an upper bound); and
whenever some epoch has positive validation AUC, the kept snapshot is the
model state right after the earliest epoch attaining that maximum (no
earlier epoch reaches it, so ties keep the earliest snapshot). -/
theorem c2_best_snapshot_tracking {M : Type} (cfg : Config) (run : RunData M)
    (hn : 1 ≤ cfg.numEpochs)
    (hpos : ∀ i < cfg.numEpochs.toNat, 0 ≤ run.valAuc i) :
    (main cfg run).loopResult
        = some (loopStateAfter cfg run cfg.numEpochs.toNat)
  ∧ (∀ i < cfg.numEpochs.toNat,
      (bestTriple (loopStateAfter cfg run (i + 1))
          ≠ bestTriple (loopStateAfter cfg run i)
        ↔ run.valAuc i > (loopStateAfter cfg run i).best_auc))
  ∧ (∃ i, i < cfg.numEpochs.toNat
      ∧ run.valAuc i = (loopStateAfter cfg run cfg.numEpochs.toNat).best_auc)
  ∧ (∀ i < cfg.numEpochs.toNat,
      run.valAuc i ≤ (loopStateAfter cfg run cfg.numEpochs.toNat).best_auc)
  ∧ ((∃ i, i < cfg.numEpochs.toNat ∧ 0 < run.valAuc i) →
      run.valAuc (loopStateAfter cfg run cfg.numEpochs.toNat).best_epoch
          = (loopStateAfter cfg run cfg.numEpochs.toNat).best_auc
      ∧ (loopStateAfter cfg run cfg.numEpochs.toNat).best_epoch
          < cfg.numEpochs.toNat
      ∧ (loopStateAfter cfg run cfg.numEpochs.toNat).best_model
          = mSeq run
              ((loopStateAfter cfg run cfg.numEpochs.toNat).best_epoch + 1)
      ∧ ∀ j < (loopStateAfter cfg run cfg.numEpochs.toNat).best_epoch,
          run.valAuc j
            < (loopStateAfter cfg run cfg.numEpochs.toNat).best_auc) := by
  have hne : cfg.numEpochs ≠ 0 := by omega
  have hn0 : 0 < cfg.numEpochs.toNat := by omega
  obtain ⟨inv0, inv1, inv2, inv3⟩ :=
    loop_best_invariant cfg run cfg.numEpochs.toNat
  refine ⟨?_, ?_, ?_, inv1, ?_⟩
  · rw [main_pos cfg run hne]
  · intro i hi
    rw [loopStateAfter_succ]
    by_cases h : run.valAuc i > (loopStateAfter cfg run i).best_auc
    · refine ⟨fun _ => h, fun _ => ?_⟩
      intro heq
      have h1 : (epochBody cfg run (loopStateAfter cfg run i) i).best_auc
          = (loopStateAfter cfg run i).best_auc := by
        have := congrArg Prod.fst heq
        simpa [bestTriple] using this
      have h2 : (epochBody cfg run (loopStateAfter cfg run i) i).best_auc
          = run.valAuc i := by
        simp [epochBody, h]
      rw [h2] at h1
      exact absurd h1 (ne_of_gt h)
    · have heq : bestTriple (epochBody cfg run (loopStateAfter cfg run i) i)
          = bestTriple (loopStateAfter cfg run i) := by
        simp [bestTriple, epochBody, h]
      exact ⟨fun hne2 => absurd heq hne2, fun hgt => absurd hgt h⟩
  · rcases lt_or_eq_of_le inv0 with hgt | heq0
    · obtain ⟨a, b, _, _⟩ := inv2 hgt
      exact ⟨(loopStateAfter cfg run cfg.numEpochs.toNat).best_epoch, b, a⟩
    · refine ⟨0, hn0, ?_⟩
      have h1 := inv1 0 hn0
      have h2 := hpos 0 hn0
      rw [← heq0] at h1
      rw [le_antisymm h1 h2]
      exact heq0
  · rintro ⟨i, hi, hip⟩
    exact inv2 (lt_of_lt_of_le hip (inv1 i hi))

/-- Claim C2 witness: a concrete one-epoch run with positive validation
AUC. -/
theorem c2_best_snapshot_tracking_witness :
    ((1 : Int) ≤ oneCfg.numEpochs
      ∧ ∀ i < oneCfg.numEpochs.toNat, 0 ≤ sampleRun.valAuc i)
  ∧ ((main oneCfg sampleRun).loopResult
        = some (loopStateAfter oneCfg sampleRun oneCfg.numEpochs.toNat)
  ∧ (∀ i < oneCfg.numEpochs.toNat,
      (bestTriple (loopStateAfter oneCfg sampleRun (i + 1))
          ≠ bestTriple (loopStateAfter oneCfg sampleRun i)
        ↔ sampleRun.valAuc i
            > (loopStateAfter oneCfg sampleRun i).best_auc))
  ∧ (∃ i, i < oneCfg.numEpochs.toNat
      ∧ sampleRun.valAuc i
          = (loopStateAfter oneCfg sampleRun oneCfg.numEpochs.toNat).best_auc)
  ∧ (∀ i < oneCfg.numEpochs.toNat,
      sampleRun.valAuc i
        ≤ (loopStateAfter oneCfg sampleRun oneCfg.numEpochs.toNat).best_auc)
  ∧ ((∃ i, i < oneCfg.numEpochs.toNat ∧ 0 < sampleRun.valAuc i) →
      sampleRun.valAuc
          (loopStateAfter oneCfg sampleRun oneCfg.numEpochs.toNat).best_epoch
          = (loopStateAfter oneCfg sampleRun oneCfg.numEpochs.toNat).best_auc
      ∧ (loopStateAfter oneCfg sampleRun oneCfg.numEpochs.toNat).best_epoch
          < oneCfg.numEpochs.toNat
      ∧ (loopStateAfter oneCfg sampleRun oneCfg.numEpochs.toNat).best_model
          = mSeq sampleRun
              ((loopStateAfter oneCfg sampleRun
                  oneCfg.numEpochs.toNat).best_epoch + 1)
      ∧ ∀ j < (loopStateAfter oneCfg sampleRun
            oneCfg.numEpochs.toNat).best_epoch,
          sampleRun.valAuc j
            < (loopStateAfter oneCfg sampleRun
                oneCfg.numEpochs.toNat).best_auc)) :=
  ⟨⟨by decide, fun i _ => div_nonneg zero_le_one zero_le_two⟩,
    c2_best_snapshot_tracking oneCfg sampleRun (by decide)
      (fun i _ => div_nonneg zero_le_one zero_le_two)⟩

/-- Claim C1: FALSIFIED by the code — the checkpoint written at the PERSIST
step stores the final-epoch live model's parameters under key `net`, not the
best-validation-AUC snapshot's.  In the concrete two-epoch run `bugRun`,
validation AUC peaks at epoch 0, so the best snapshot is the parameter state
`1` (after epoch 0) while the persisted payload is the final live state `2`:
the source saves `model.state_dict()`, not `best_model.state_dict()`, into
`best_model.pth`. -/
theorem c1_persist_divergence :
    persistedParams (main bugCfg bugRun).trace = [2]
  ∧ (main bugCfg bugRun).loopResult.map (fun st => st.best_model) = some 1
  ∧ (2 : Nat) ≠ 1 := by
  have hne : bugCfg.numEpochs ≠ 0 := by decide
  have ht : bugCfg.numEpochs.toNat = 2 := by decide
  have e0 : loopStateAfter bugCfg bugRun 1
      = epochBody bugCfg bugRun (initState bugCfg bugRun) 0 :=
    loopStateAfter_succ bugCfg bugRun 0
  have hc0 : bugRun.valAuc 0 > (initState bugCfg bugRun).best_auc := by
    norm_num [bugRun, initState]
  have hba1 : (loopStateAfter bugCfg bugRun 1).best_auc = 1 / 2 := by
    rw [e0, epochBody_best_auc, if_pos hc0]
    norm_num [bugRun]
  have hbm1 : (loopStateAfter bugCfg bugRun 1).best_model = 1 := by
    rw [e0, epochBody_best_model, if_pos hc0]
    rfl
  have e1 : loopStateAfter bugCfg bugRun 2
      = epochBody bugCfg bugRun (loopStateAfter bugCfg bugRun 1) 1 :=
    loopStateAfter_succ bugCfg bugRun 1
  have hc1 : ¬ (bugRun.valAuc 1
      > (loopStateAfter bugCfg bugRun 1).best_auc) := by
    rw [hba1]
    norm_num [bugRun]
  have hbm2 : (loopStateAfter bugCfg bugRun 2).best_model = 1 := by
    rw [e1, epochBody_best_model, if_neg hc1, hbm1]
  have hmodel2 : (loopStateAfter bugCfg bugRun 2).model = 2 := by
    rw [loop_model]
    simp [mSeq, bugRun]
  rw [main_pos bugCfg bugRun hne, ht]
  refine ⟨?_, ?_, by decide⟩
  · rw [persistedParams_append, persistedParams_append, persistedParams_append,
      persistedParams_resume, persistedParams_persist,
      persistedParams_evalPass,
      (loop_trace_counts bugCfg bugRun 2).2.2.2.2, hmodel2]
    rfl
  · exact congrArg some hbm2

end MedMNIST3D
